import Mathlib

/-!
Verification of the `Fetcher` component of `src/fetcher/fetcher.py`.

The Python module is shallowly embedded below.  External collaborators
(`feedparser.parse`, `requests.get`, `newspaper.fulltext` together with the
regex cleanup pipeline that postprocesses its output, `utils.clean_html`)
are treated as black boxes: they appear as oracle parameters of the
operations, exactly as the specification declares them out of scope.
Python dictionaries with optional keys are embedded as structures whose
optional fields have type `Option _`, where `none` means "key absent"
(or, where noted, the Python value `None`).  Python exceptions are
embedded with `Except PyErr`.
-/

/-- Python exceptions that the embedded code can raise. -/
inductive PyErr where
  | keyError (k : String)
  | indexError (i : Nat)
  deriving DecidableEq, Repr

/-- Equality on `Except` values is decidable when it is on both components
(used to evaluate the embedded operations on concrete inputs). -/
instance {e a : Type} [DecidableEq e] [DecidableEq a] :
    DecidableEq (Except e a) := fun x y =>
  match x, y with
  | .error u, .error u' =>
    if h : u = u' then .isTrue (by rw [h]) else .isFalse (by simp [h])
  | .error _, .ok _ => .isFalse (by simp)
  | .ok v, .error _ => .isFalse (by simp)
  | .ok v, .ok v' =>
    if h : v = v' then .isTrue (by rw [h]) else .isFalse (by simp [h])

/-- `class Feed`: a named RSS source (fetcher.py lines 13-21). -/
structure Feed where
  name : String
  url : String
  deriving DecidableEq, Repr

/-- The fixed class-level feed list `Fetcher.feeds` (fetcher.py lines 28-32). -/
def Fetcher.feeds : List Feed :=
  [ ⟨"CNA", "https://www.channelnewsasia.com/rssfeeds/8395986"⟩,
    ⟨"BBC", "http://feeds.bbci.co.uk/news/rss.xml"⟩,
    ⟨"StraitsTimes", "https://www.straitstimes.com/news/world/rss.xml"⟩ ]

/-- A raw feed entry as produced by the parsing library: link hrefs, a title,
a parsed publication time (a `time.struct_time`, embedded as a `Nat` since the
claims under verification only concern entries that carry a publication time
and only compare such times), and an optional `summary` field (`none` = the
entry has no `"summary"` key). -/
structure RawEntry where
  links : List String
  title : String
  published_parsed : Nat
  summary : Option String
  deriving DecidableEq, Repr

/-- The simplified article summary dictionary built by `simple_fetch`
(fetcher.py lines 81-88).  The Python dict literal always carries exactly the
keys `url`, `title`, `published_on`, `short_summary`; `short_summary := none`
embeds the Python value `None` (key present, value null). -/
structure SimplifiedEntry where
  url : String
  title : String
  published_on : Nat
  short_summary : Option String
  deriving DecidableEq, Repr

/-- The key list of the dictionary literal of fetcher.py lines 82-87. -/
def SimplifiedEntry.keys (_ : SimplifiedEntry) : List String :=
  ["url", "title", "published_on", "short_summary"]

/-- The article info record built by `retrieve_article_info`
(fetcher.py lines 107-170).  In every record the code constructs, the
`"text"` key is present; `status_code` and `plain_text` are optional keys
(`none` = key absent). -/
structure ArticleInfo where
  text : String
  status_code : Option Nat
  plain_text : Option String
  success : Bool
  deriving DecidableEq, Repr

/-- An HTTP response as seen through the blocking client: `.text` and
`.status_code` (the only attributes the code reads). -/
structure Response where
  text : String
  status_code : Nat
  deriving DecidableEq, Repr

/-- The network oracle for `requests.get`: either a transport-level failure
carrying the exception message (`str(e)`), or a response. -/
def Net : Type := String → Except String Response

/-- The oracle for the feed-parsing library: `none` embeds
`feedparser.parse` raising (the bare `except: continue` of fetcher.py lines
51-54), `some es` a feed whose `.entries` is `es`. -/
def Parse : Type := String → Option (List RawEntry)

/-- The oracle for article plain-text extraction: `newspaper.fulltext`
composed with the hard-coded textual cleanup pipeline of fetcher.py lines
145-158 (the whole `try` body that computes `plain_text`).  `none` embeds an
exception thrown anywhere inside that block; no claim under verification
inspects the cleaned text itself. -/
def Extract : Type := String → Option String

/-- The oracle for `utils.clean_html` (an HTML-stripping utility, external to
`src/`): total, returns the stripped string. -/
def CleanHtml : Type := String → String

/-- Helper for `pySplit`: walks the characters, cutting at each separator;
`acc` holds the current piece reversed. -/
def pySplitAux (sep : Char) : List Char → List Char → List String
  | [], acc => [String.mk acc.reverse]
  | c :: cs, acc =>
    if c = sep then String.mk acc.reverse :: pySplitAux sep cs []
    else pySplitAux sep cs (c :: acc)

/-- Python `str.split` with a one-character separator: splits at every
occurrence, keeping empty pieces (`"a//b".split('/') == ['a', '', 'b']`,
`"".split('/') == ['']`). -/
def pySplit (sep : Char) (s : String) : List String :=
  pySplitAux sep s.data []

/-- `Fetcher.get_url_domain` (fetcher.py lines 97-104).  Python splits the url
on `/`; accessing `comp[1]` (and, inside the branch, `url.split('/')[2]`) can
raise `IndexError`, which the code catches and turns into `None`; all other
paths fall through to an implicit `return None`. -/
def get_url_domain (url : String) : Option String :=
  match pySplit '/' url with
  | c0 :: c1 :: rest =>
    if c1 = "" ∧ (c0 = "http" ∨ c0 = "https") then rest.head?
    else none
  | _ => none

section SortModel

/-- The descending comparison used by `fetch`: `res.sort(key=lambda x:
x.published_parsed, reverse=True)` orders entries so that publication times
are non-increasing. -/
def entryGE (a b : RawEntry) : Prop := b.published_parsed ≤ a.published_parsed

instance : DecidableRel entryGE := fun a b =>
  inferInstanceAs (Decidable (b.published_parsed ≤ a.published_parsed))

instance : IsTotal RawEntry entryGE :=
  ⟨fun a b => Nat.le_total b.published_parsed a.published_parsed⟩

instance : IsTrans RawEntry entryGE :=
  ⟨fun _ _ _ h h' => Nat.le_trans h' h⟩

/-- The sort performed at fetcher.py line 58.  Python `list.sort` is a stable
sort; a stable sort with respect to a total preorder is unique as a function,
so the embedding uses the stable `List.insertionSort` with the descending
comparison. -/
def sortByPublishedDesc (l : List RawEntry) : List RawEntry :=
  List.insertionSort entryGE l

end SortModel

/-- Python dictionary lookup: `d[k]` / `k in d` on a string-keyed dict,
embedded as an association list in insertion order. -/
def dictGet (k : String) : List (String × α) → Option α
  | [] => none
  | (k', v) :: rest => if k' = k then some v else dictGet k rest

/-- Python dictionary assignment `d[k] = v`: replaces the value in place if
the key is present, otherwise appends the binding. -/
def dictInsert (k : String) (v : α) : List (String × α) → List (String × α)
  | [] => [(k, v)]
  | (k', v') :: rest => if k' = k then (k, v) :: rest else (k', v') :: dictInsert k v rest

/-- The in-memory state of a `Fetcher` instance: the two cache dictionaries
`__cached_simple_fetch` and `__cached_articles_info` and the
`use_storage_for_cache` flag (fetcher.py lines 34-39).  The disk files are
modelled separately on the untyped value level (see `saveCacheToStorage`
below), since flushing them does not affect the in-memory state. -/
structure FState where
  use_storage_for_cache : Bool
  cached_simple_fetch : List (String × List SimplifiedEntry)
  cached_articles_info : List (String × ArticleInfo)
  deriving DecidableEq, Repr

/-- A freshly constructed `Fetcher(use_storage_for_cache=False)`: both caches
empty. -/
def FState.empty : FState := ⟨false, [], []⟩

/-- `Fetcher.fetch` (fetcher.py lines 41-59): for each source try to parse its
feed, silently skipping sources whose parse raises, concatenate the entries,
and sort the combined list by `published_parsed` descending.  `srcs = none`
embeds the Python default `srcs=None`, replaced by `Fetcher.feeds`.  The
second component counts the network (feed-parsing) calls performed. -/
def fetch (parse : Parse) (srcs : Option (List Feed)) : List RawEntry × Nat :=
  let l := srcs.getD Fetcher.feeds
  let res := l.foldl (fun acc s => match parse s.url with
    | none => acc
    | some es => acc ++ es) []
  (sortByPublishedDesc res, l.length)

/-- A canonical rendering of Python `str(set_of_urls)` (fetcher.py line 75):
deterministic in the *set* of urls (sorted distinct elements), since within a
process `str` of a set of strings is a fixed function of its contents; the
exact ordering Python prints is irrelevant to every claim. -/
def setInsert (s : String) : List String → List String
  | [] => [s]
  | x :: xs => if s = x then x :: xs else if s < x then s :: x :: xs else x :: setInsert s xs

/-- Renders the url set as `{'u1', 'u2'}` (see `setInsert`). -/
def pySetStr (urls : List String) : String :=
  "\x7b" ++ String.intercalate ", "
    ((urls.foldl (fun acc u => setInsert u acc) []).map (fun u => "\x27" ++ u ++ "\x27"))
  ++ "\x7d"

/-- The cache key of `simple_fetch` (fetcher.py line 75):
`"URL<%s>" % str(None if not srcs else set(map(lambda x: x.url, srcs)))`.
Both `srcs=None` and the empty list are falsy in Python, so both yield the
sentinel `"URL<None>"`. -/
def simpleCacheKey (srcs : Option (List Feed)) : String :=
  match srcs with
  | none => "URL<None>"
  | some [] => "URL<None>"
  | some l => "URL<" ++ pySetStr (l.map Feed.url) ++ ">"

/-- The projection applied to each raw entry by `simple_fetch` (fetcher.py
lines 81-88).  `entry.links[0].href` raises `IndexError` when the entry has no
links; `short_summary` is `None` exactly when the entry has no `summary` key,
otherwise `utils.clean_html(entry.summary)`. -/
def project_entry (clean_html : CleanHtml) (e : RawEntry) : Except PyErr SimplifiedEntry :=
  match e.links with
  | [] => .error (.indexError 0)
  | l :: _ =>
    .ok { url := l, title := e.title, published_on := e.published_parsed,
          short_summary := e.summary.map clean_html }

/-- `Fetcher.simple_fetch` (fetcher.py lines 62-94).  Returns the produced
list (or a raised exception), the successor state, and the number of network
calls performed.  On a cache hit (`cached` and the key present) the stored
list is returned unchanged with no fetch; otherwise `fetch` runs, the entries
are projected, and the result is stored only when `cached` is true and the
list is non-empty.  (The disk flush of line 92 does not change the in-memory
state and is modelled separately.) -/
def simple_fetch (parse : Parse) (clean_html : CleanHtml) (srcs : Option (List Feed))
    (cached : Bool) (st : FState) :
    Except PyErr (List SimplifiedEntry) × FState × Nat :=
  let KEY := simpleCacheKey srcs
  match (if cached then dictGet KEY st.cached_simple_fetch else none) with
  | some final_data => (.ok final_data, st, 0)
  | none =>
    let fr := fetch parse srcs
    match fr.1.mapM (project_entry clean_html) with
    | .error e => (.error e, st, fr.2)
    | .ok final_data =>
      if cached ∧ final_data ≠ [] then
        (.ok final_data,
         { st with cached_simple_fetch := dictInsert KEY final_data st.cached_simple_fetch },
         fr.2)
      else (.ok final_data, st, fr.2)

/-- The cache key of `retrieve_article_info` (fetcher.py line 119):
`"URL<%s>" % str(url)`. -/
def articleCacheKey (url : String) : String := "URL<" ++ url ++ ">"

/-- `Fetcher.retrieve_article_info` (fetcher.py lines 107-170).  On a cache
hit the stored record is read back (the code reads `result["plain_text"]`,
which raises `KeyError` if that key were absent, and re-assigns it — a no-op
on the value) and returned unchanged with no network call.  Otherwise a GET is
issued: a transport failure is returned as `{text: str(e), success: False}`
with no `status_code` and no `plain_text` key; on a response, `text` and
`status_code` are recorded, a 2xx status triggers plain-text extraction
(`success=True` and `plain_text` set on success, `success=False` if the
extraction block raises), and the record is stored only when `cached` is true
and it is successful; a non-2xx status yields `success=False` with no
`plain_text` key and no caching. -/
def retrieve_article_info (net : Net) (extract : Extract) (url : String)
    (cached : Bool) (st : FState) : Except PyErr ArticleInfo × FState × Nat :=
  let KEY := articleCacheKey url
  match (if cached then dictGet KEY st.cached_articles_info else none) with
  | some result =>
    match result.plain_text with
    | some _ => (.ok result, st, 0)
    | none => (.error (.keyError "plain_text"), st, 0)
  | none =>
    match net url with
    | .error e =>
      (.ok { text := e, status_code := none, plain_text := none, success := false }, st, 1)
    | .ok response =>
      if 200 ≤ response.status_code ∧ response.status_code < 300 then
        match extract response.text with
        | some plain_text =>
          let result : ArticleInfo :=
            { text := response.text, status_code := some response.status_code,
              plain_text := some plain_text, success := true }
          if cached then
            (.ok result,
             { st with cached_articles_info := dictInsert KEY result st.cached_articles_info },
             1)
          else (.ok result, st, 1)
        | none =>
          (.ok { text := response.text, status_code := some response.status_code,
                 plain_text := none, success := false }, st, 1)
      else
        (.ok { text := response.text, status_code := some response.status_code,
               plain_text := none, success := false }, st, 1)

/-- `Fetcher.retrieve_article_contents` (fetcher.py lines 172-177): calls
`retrieve_article_info(url)` (with the default `cached=True`); when the record
is unsuccessful it evaluates `"Error " + str(data["status_code"])` — a
`KeyError` when the record has no `status_code` key — otherwise it returns
`data["plain_text"]`. -/
def retrieve_article_contents (net : Net) (extract : Extract) (url : String)
    (st : FState) : Except PyErr String × FState × Nat :=
  let r := retrieve_article_info net extract url true st
  match r.1 with
  | .error e => (.error e, r.2.1, r.2.2)
  | .ok data =>
    if data.success = false then
      match data.status_code with
      | some c => (.ok ("Error " ++ toString c), r.2.1, r.2.2)
      | none => (.error (.keyError "status_code"), r.2.1, r.2.2)
    else
      match data.plain_text with
      | some pt => (.ok pt, r.2.1, r.2.2)
      | none => (.error (.keyError "plain_text"), r.2.1, r.2.2)

/-- A Python value as it can live in the cache dictionaries: the
JSON-serializable subset of Python values, distinguishing tuples (such as the
`time.struct_time` that `simple_fetch` stores under `published_on`) from
lists, since `json` serializes both as arrays but deserializes arrays as
lists. -/
inductive PyVal where
  | pstr (s : String)
  | pint (n : Int)
  | pbool (b : Bool)
  | pnone
  | plist (xs : List PyVal)
  | ptuple (xs : List PyVal)
  | pdict (kvs : List (String × PyVal))
  deriving Repr

/-- A JSON document tree, as written to / read from the cache files (the
textual encoding is bijective with this tree and is abstracted away). -/
inductive JVal where
  | jstr (s : String)
  | jint (n : Int)
  | jbool (b : Bool)
  | jnull
  | jarr (xs : List JVal)
  | jobj (kvs : List (String × JVal))
  deriving Repr

mutual

/-- `json.dumps` on the serializable subset: tuples and lists both become
JSON arrays; dict insertion order is preserved. -/
def dumps : PyVal → JVal
  | .pstr s => .jstr s
  | .pint n => .jint n
  | .pbool b => .jbool b
  | .pnone => .jnull
  | .plist xs => .jarr (dumpsList xs)
  | .ptuple xs => .jarr (dumpsList xs)
  | .pdict kvs => .jobj (dumpsKvs kvs)

/-- `json.dumps` mapped over the elements of a Python sequence. -/
def dumpsList : List PyVal → List JVal
  | [] => []
  | x :: xs => dumps x :: dumpsList xs

/-- `json.dumps` mapped over the entries of a Python dict. -/
def dumpsKvs : List (String × PyVal) → List (String × JVal)
  | [] => []
  | (k, v) :: kvs => (k, dumps v) :: dumpsKvs kvs

end

mutual

/-- `json.loads`: JSON arrays always come back as Python lists (never
tuples); object insertion order is preserved. -/
def loads : JVal → PyVal
  | .jstr s => .pstr s
  | .jint n => .pint n
  | .jbool b => .pbool b
  | .jnull => .pnone
  | .jarr xs => .plist (loadsList xs)
  | .jobj kvs => .pdict (loadsKvs kvs)

/-- `json.loads` mapped over the elements of a JSON array. -/
def loadsList : List JVal → List PyVal
  | [] => []
  | x :: xs => loads x :: loadsList xs

/-- `json.loads` mapped over the entries of a JSON object. -/
def loadsKvs : List (String × JVal) → List (String × PyVal)
  | [] => []
  | (k, v) :: kvs => (k, loads v) :: loadsKvs kvs

end

mutual

/-- A Python value contains no tuple anywhere (so the `json` round trip can
reproduce it exactly). -/
def tupleFree : PyVal → Bool
  | .pstr _ => true
  | .pint _ => true
  | .pbool _ => true
  | .pnone => true
  | .plist xs => tupleFreeList xs
  | .ptuple _ => false
  | .pdict kvs => tupleFreeKvs kvs

/-- `tupleFree` over the elements of a list. -/
def tupleFreeList : List PyVal → Bool
  | [] => true
  | x :: xs => tupleFree x && tupleFreeList xs

/-- `tupleFree` over the values of a dict. -/
def tupleFreeKvs : List (String × PyVal) → Bool
  | [] => true
  | (_, v) :: kvs => tupleFree v && tupleFreeKvs kvs

end

/-- `Fetcher.saveCacheToStorage` (fetcher.py lines 179-183): serializes each
of the two cache dictionaries in full to its fixed JSON file (the pair models
the contents of `fetcher__cached_simple_fetch.json` and
`fetcher__cached_articles_info.json`). -/
def saveCacheToStorage (cached_simple_fetch cached_articles_info : List (String × PyVal)) :
    JVal × JVal :=
  (dumps (.pdict cached_simple_fetch), dumps (.pdict cached_articles_info))

/-- `Fetcher.readCacheFromStorage` (fetcher.py lines 185-191): each cache
file, when present (`none` models a missing file), is parsed and its value
replaces the corresponding in-memory cache; a missing file leaves the cache
empty. -/
def readCacheFromStorage (fileS fileA : Option JVal) : PyVal × PyVal :=
  ((fileS.map loads).getD (.pdict []), (fileA.map loads).getD (.pdict []))

/-- The Python value that `simple_fetch` stores for one simplified entry: a
dict whose `published_on` value is the `time.struct_time` — a *tuple* of
integers (the embedding carries the time as a single integer, so the tuple
here has one component; only its tuple-ness matters to serialization) — and
whose `short_summary` may be `None`. -/
def pyOfEntry (e : SimplifiedEntry) : PyVal :=
  .pdict [("url", .pstr e.url), ("title", .pstr e.title),
          ("published_on", .ptuple [.pint e.published_on]),
          ("short_summary", (e.short_summary.map PyVal.pstr).getD .pnone)]

/-! ## Helper lemmas -/

theorem dictGet_dictInsert_self (k : String) (v : α) (d : List (String × α)) :
    dictGet k (dictInsert k v d) = some v := by
  induction d with
  | nil => simp [dictInsert, dictGet]
  | cons p rest ih =>
    obtain ⟨k', v'⟩ := p
    by_cases h : k' = k <;> simp [dictInsert, dictGet, h, ih]

theorem mem_dictInsert {p : String × α} {k : String} {v : α} {d : List (String × α)}
    (hp : p ∈ dictInsert k v d) : p = (k, v) ∨ p ∈ d := by
  induction d with
  | nil => simpa [dictInsert] using hp
  | cons q rest ih =>
    obtain ⟨k', v'⟩ := q
    by_cases h : k' = k
    · simp only [dictInsert, if_pos h, List.mem_cons] at hp
      rcases hp with h1 | h1
      · exact Or.inl h1
      · exact Or.inr (List.mem_cons_of_mem _ h1)
    · simp only [dictInsert, if_neg h, List.mem_cons] at hp
      rcases hp with h1 | h1
      · exact Or.inr (by simp [h1])
      · rcases ih h1 with h2 | h2
        · exact Or.inl h2
        · exact Or.inr (List.mem_cons_of_mem _ h2)

theorem dictGet_mem {k : String} {v : α} {d : List (String × α)}
    (h : dictGet k d = some v) : (k, v) ∈ d := by
  induction d with
  | nil => simp [dictGet] at h
  | cons q rest ih =>
    obtain ⟨k', v'⟩ := q
    by_cases hk : k' = k
    · simp only [dictGet, if_pos hk] at h
      subst hk
      simp only [Option.some.injEq] at h
      simp [h]
    · simp only [dictGet, if_neg hk] at h
      exact List.mem_cons_of_mem _ (ih h)

theorem fetch_foldl_gather (parse : Parse) (l : List Feed) (acc : List RawEntry) :
    l.foldl (fun acc s => match parse s.url with
      | none => acc
      | some es => acc ++ es) acc
      = acc ++ (l.map (fun s => (parse s.url).getD [])).flatten := by
  induction l generalizing acc with
  | nil => simp
  | cons s l ih =>
    cases h : parse s.url with
    | none => simp [List.foldl_cons, h, ih]
    | some es => simp [List.foldl_cons, h, ih]

mutual

theorem loads_dumps (v : PyVal) (h : tupleFree v = true) : loads (dumps v) = v := by
  cases v with
  | pstr s => rfl
  | pint n => rfl
  | pbool b => rfl
  | pnone => rfl
  | plist xs =>
    simp only [tupleFree] at h
    simp only [dumps, loads]
    exact congrArg PyVal.plist (loadsList_dumpsList xs h)
  | ptuple xs => simp [tupleFree] at h
  | pdict kvs =>
    simp only [tupleFree] at h
    simp only [dumps, loads]
    exact congrArg PyVal.pdict (loadsKvs_dumpsKvs kvs h)

theorem loadsList_dumpsList (xs : List PyVal) (h : tupleFreeList xs = true) :
    loadsList (dumpsList xs) = xs := by
  cases xs with
  | nil => rfl
  | cons x xs =>
    simp only [tupleFreeList, Bool.and_eq_true] at h
    simp only [dumpsList, loadsList]
    rw [loads_dumps x h.1, loadsList_dumpsList xs h.2]

theorem loadsKvs_dumpsKvs (kvs : List (String × PyVal)) (h : tupleFreeKvs kvs = true) :
    loadsKvs (dumpsKvs kvs) = kvs := by
  cases kvs with
  | nil => rfl
  | cons p kvs =>
    obtain ⟨k, v⟩ := p
    simp only [tupleFreeKvs, Bool.and_eq_true] at h
    simp only [dumpsKvs, loadsKvs]
    rw [loads_dumps v h.1, loadsKvs_dumpsKvs kvs h.2]

end

/-- The invariant of the two caches: every stored article-info record is
successful (hence carries a `plain_text` key) and every stored simple-fetch
list is non-empty. -/
def cacheInvariant (st : FState) : Prop :=
  (∀ p ∈ st.cached_articles_info, p.2.success = true ∧ p.2.plain_text.isSome = true) ∧
  (∀ p ∈ st.cached_simple_fetch, p.2 ≠ [])

instance : DecidablePred cacheInvariant := fun st => by
  unfold cacheInvariant
  infer_instance

/-! ## Claims -/

/-- C2: the spec claims `get_url_domain` returns the host of every absolute
`scheme://host/...` URL, in particular `"example.com"` for
`"https://example.com/a/b"`, and null otherwise.  Evaluating the embedded code
shows the null cases hold but the positive case fails: splitting
`"https://example.com/a/b"` on `/` leaves the scheme component as `"https:"`
(colon included), which the code compares against the literal `"https"`, so
the function returns `None` on every well-formed absolute URL; it only
returns a host for malformed inputs such as `"https//example.com/a"`. -/
theorem claim_C2_get_url_domain_eval :
    get_url_domain "https://example.com/a/b" = none ∧
    get_url_domain "/relative/path" = none ∧
    get_url_domain "not a url" = none ∧
    get_url_domain "https//example.com/a" = some "example.com" := by
  refine ⟨?_, ?_, ?_, ?_⟩ <;> decide

/-- C4 counterexample: the round trip through `saveCacheToStorage` /
`readCacheFromStorage` does not reproduce the original mappings for the cache
contents `simple_fetch` actually stores: the `published_on` value is a
`time.struct_time` — a tuple — which `json.dumps` writes as an array and
`json.loads` reads back as a list, a different value. -/
theorem claim_C4_counterexample :
    readCacheFromStorage
        (some (saveCacheToStorage
          [("URL<None>", PyVal.plist [pyOfEntry ⟨"http://x/a", "t", 5, none⟩])] []).1)
        (some (saveCacheToStorage
          [("URL<None>", PyVal.plist [pyOfEntry ⟨"http://x/a", "t", 5, none⟩])] []).2)
      ≠ (PyVal.pdict [("URL<None>", PyVal.plist [pyOfEntry ⟨"http://x/a", "t", 5, none⟩])],
         PyVal.pdict []) := by
  simp [readCacheFromStorage, saveCacheToStorage, pyOfEntry,
        dumps, dumpsList, dumpsKvs, loads, loadsList, loadsKvs]

/-- C4 (amended): the save/read round trip reproduces mappings equal to the
originals for every pair of cache dictionaries whose values contain no tuple;
caches holding the tuple-valued `published_on` time structs that
`simple_fetch` stores come back with lists in their place and are not equal. -/
theorem claim_C4_roundtrip_tuple_free
    (s a : List (String × PyVal))
    (hs : tupleFree (.pdict s) = true) (ha : tupleFree (.pdict a) = true) :
    readCacheFromStorage (some (saveCacheToStorage s a).1) (some (saveCacheToStorage s a).2)
      = (.pdict s, .pdict a) := by
  have h : readCacheFromStorage (some (saveCacheToStorage s a).1)
        (some (saveCacheToStorage s a).2)
      = (loads (dumps (.pdict s)), loads (dumps (.pdict a))) := rfl
  rw [h, loads_dumps _ hs, loads_dumps _ ha]

/-- C4 witness: a concrete tuple-free pair of caches round trips to itself. -/
theorem claim_C4_roundtrip_witness :
    readCacheFromStorage
        (some (saveCacheToStorage [("k", PyVal.pstr "v")] [("k2", PyVal.pbool true)]).1)
        (some (saveCacheToStorage [("k", PyVal.pstr "v")] [("k2", PyVal.pbool true)]).2)
      = (.pdict [("k", PyVal.pstr "v")], .pdict [("k2", PyVal.pbool true)]) :=
  claim_C4_roundtrip_tuple_free _ _ (by decide) (by decide)

/-- C5: on a cache miss, when the GET returns a response whose status code
lies outside `[200, 300)`, `retrieve_article_info` returns the record with the
raw body in `text`, the `status_code`, `success = false` and no `plain_text`
key, leaves the cache unchanged, and a subsequent call with `cached = true`
performs a network call again. -/
theorem claim_C5_non2xx_failure_not_cached
    (net : Net) (extract : Extract) (url : String) (st : FState) (cached : Bool)
    (resp : Response)
    (hmiss : dictGet (articleCacheKey url) st.cached_articles_info = none)
    (hnet : net url = .ok resp)
    (hcode : ¬(200 ≤ resp.status_code ∧ resp.status_code < 300)) :
    retrieve_article_info net extract url cached st
      = (.ok { text := resp.text, status_code := some resp.status_code,
               plain_text := none, success := false }, st, 1)
    ∧ (retrieve_article_info net extract url true st).2.2 = 1 := by
  constructor
  · cases cached <;> simp [retrieve_article_info, hmiss, hnet, hcode]
  · simp [retrieve_article_info, hmiss, hnet, hcode]

/-- C5 witness: a 404 response on an empty cache. -/
theorem claim_C5_witness :
    retrieve_article_info (fun _ => .ok ⟨"not found", 404⟩) (fun _ => none)
        "http://x/a" true FState.empty
      = (.ok { text := "not found", status_code := some 404,
               plain_text := none, success := false }, FState.empty, 1)
    ∧ (retrieve_article_info (fun _ => .ok ⟨"not found", 404⟩) (fun _ => none)
        "http://x/a" true FState.empty).2.2 = 1 :=
  claim_C5_non2xx_failure_not_cached (fun _ => .ok ⟨"not found", 404⟩) (fun _ => none)
    "http://x/a" FState.empty true ⟨"not found", 404⟩ rfl rfl (by decide)

/-- C6: on a cache miss, when the GET raises a transport-level failure,
`retrieve_article_info` catches it and returns exactly
`{text: <error message>, success: False}` — no `status_code` key, no
`plain_text` key — leaves the cache unchanged, and propagates no exception. -/
theorem claim_C6_transport_failure_recovered
    (net : Net) (extract : Extract) (url : String) (st : FState) (cached : Bool)
    (msg : String)
    (hmiss : dictGet (articleCacheKey url) st.cached_articles_info = none)
    (hnet : net url = .error msg) :
    retrieve_article_info net extract url cached st
      = (.ok { text := msg, status_code := none, plain_text := none, success := false },
         st, 1) := by
  cases cached <;> simp [retrieve_article_info, hmiss, hnet]

/-- C6 witness: a connection error on an empty cache. -/
theorem claim_C6_witness :
    retrieve_article_info (fun _ => .error "connection refused") (fun _ => none)
        "http://x/a" true FState.empty
      = (.ok { text := "connection refused", status_code := none,
               plain_text := none, success := false }, FState.empty, 1) :=
  claim_C6_transport_failure_recovered _ _ _ _ _ _ rfl rfl

/-- C7: for every parse oracle and every list of sources (hence for every
permutation of a given source order), `fetch` returns a list that is sorted by
publication time in non-increasing order and is a permutation of the
concatenated entries of exactly the sources that parsed successfully (failing
sources contribute nothing instead of aborting); the default call fetches the
built-in feed list. -/
theorem claim_C7_fetch_sorted_merge (parse : Parse) (srcs : List Feed) :
    List.Sorted entryGE (fetch parse (some srcs)).1 ∧
    (fetch parse (some srcs)).1.Perm
      ((srcs.map (fun s => (parse s.url).getD [])).flatten) ∧
    fetch parse none = fetch parse (some Fetcher.feeds) := by
  refine ⟨List.sorted_insertionSort entryGE _, ?_, rfl⟩
  have h := fetch_foldl_gather parse srcs []
  simp only [List.nil_append] at h
  have h2 : (fetch parse (some srcs)).1
      = sortByPublishedDesc ((srcs.map (fun s => (parse s.url).getD [])).flatten) := by
    show sortByPublishedDesc (srcs.foldl _ []) = _
    rw [h]
  rw [h2]
  exact List.perm_insertionSort entryGE _

/-- Case analysis on the state left by `simple_fetch`: either the caches are
untouched, or a non-empty list was stored under the computed key. -/
theorem simple_fetch_state_cases (parse : Parse) (clean : CleanHtml)
    (srcs : Option (List Feed)) (cached : Bool) (st : FState) :
    (simple_fetch parse clean srcs cached st).2.1 = st ∨
    ∃ v : List SimplifiedEntry, v ≠ [] ∧
      (simple_fetch parse clean srcs cached st).2.1
        = { st with cached_simple_fetch :=
              dictInsert (simpleCacheKey srcs) v st.cached_simple_fetch } := by
  simp only [simple_fetch]
  split
  · exact Or.inl rfl
  · split
    · exact Or.inl rfl
    · split
      · next h => exact Or.inr ⟨_, h.2, rfl⟩
      · exact Or.inl rfl

/-- Case analysis on the state left by `retrieve_article_info`: either the
caches are untouched, or a successful record (which carries a `plain_text`
key) was stored under the url's key. -/
theorem retrieve_article_info_state_cases (net : Net) (extract : Extract)
    (url : String) (cached : Bool) (st : FState) :
    (retrieve_article_info net extract url cached st).2.1 = st ∨
    ∃ r : ArticleInfo, r.success = true ∧ r.plain_text.isSome = true ∧
      (retrieve_article_info net extract url cached st).2.1
        = { st with cached_articles_info :=
              dictInsert (articleCacheKey url) r st.cached_articles_info } := by
  simp only [retrieve_article_info]
  split
  · split
    · exact Or.inl rfl
    · exact Or.inl rfl
  · split
    · exact Or.inl rfl
    · split
      · split
        · split
          · refine Or.inr ⟨_, ?_, ?_, rfl⟩ <;> rfl
          · exact Or.inl rfl
        · exact Or.inl rfl
      · exact Or.inl rfl

/-- C8: every operation preserves the invariant that only successful results
are cached — every stored article-info record has `success = true` and a
`plain_text` key, and every stored simple-fetch list is non-empty. -/
theorem claim_C8_only_successful_results_cached (st : FState) (hinv : cacheInvariant st) :
    (∀ parse clean srcs cached,
        cacheInvariant (simple_fetch parse clean srcs cached st).2.1) ∧
    (∀ net extract url cached,
        cacheInvariant (retrieve_article_info net extract url cached st).2.1) := by
  constructor
  · intro parse clean srcs cached
    rcases simple_fetch_state_cases parse clean srcs cached st with h | ⟨v, hv, h⟩
    · rwa [h]
    · rw [h]
      refine ⟨hinv.1, ?_⟩
      intro p hp
      rcases mem_dictInsert hp with h1 | h1
      · rw [h1]; exact hv
      · exact hinv.2 p h1
  · intro net extract url cached
    rcases retrieve_article_info_state_cases net extract url cached st with h | ⟨r, hs, hpt, h⟩
    · rwa [h]
    · rw [h]
      refine ⟨?_, hinv.2⟩
      intro p hp
      rcases mem_dictInsert hp with h1 | h1
      · rw [h1]; exact ⟨hs, hpt⟩
      · exact hinv.1 p h1

/-- C8 witness: the invariant holds after concrete operations on the empty
state. -/
theorem claim_C8_witness :
    cacheInvariant ((simple_fetch (fun _ => some []) (fun s => s) none true FState.empty).2.1) ∧
    cacheInvariant ((retrieve_article_info (fun _ => .error "e") (fun _ => none)
        "http://x/a" true FState.empty).2.1) :=
  ⟨(claim_C8_only_successful_results_cached FState.empty (by decide)).1 _ _ _ _,
   (claim_C8_only_successful_results_cached FState.empty (by decide)).2 _ _ _ _⟩

/-- Cache-hit behaviour of `retrieve_article_info`: when the key is present
and the stored record carries a `plain_text` key, the stored record is
returned unchanged, the state is unchanged, and no network call happens. -/
theorem retrieve_article_info_hit (net : Net) (extract : Extract) (url : String)
    (st : FState) (r : ArticleInfo)
    (hr : dictGet (articleCacheKey url) st.cached_articles_info = some r)
    (hpt : r.plain_text.isSome = true) :
    retrieve_article_info net extract url true st = (.ok r, st, 0) := by
  obtain ⟨pt, hpt'⟩ := Option.isSome_iff_exists.mp hpt
  simp [retrieve_article_info, hr, hpt']

/-- Cache-hit behaviour of `simple_fetch`: when the key is present the stored
list is returned unchanged, the state is unchanged, and no network call
happens. -/
theorem simple_fetch_hit (parse : Parse) (clean : CleanHtml)
    (srcs : Option (List Feed)) (st : FState) (v : List SimplifiedEntry)
    (hv : dictGet (simpleCacheKey srcs) st.cached_simple_fetch = some v) :
    simple_fetch parse clean srcs true st = (.ok v, st, 0) := by
  simp [simple_fetch, hv]

/-- On a cache miss, a call to `retrieve_article_info` with `cached = true`
that returns a successful record performed exactly one network call and
stored that record (which carries a `plain_text` key) under the url's key. -/
theorem retrieve_article_info_miss_success (net : Net) (extract : Extract)
    (url : String) (st : FState) (r : ArticleInfo) (st1 : FState) (n : Nat)
    (hmiss : dictGet (articleCacheKey url) st.cached_articles_info = none)
    (hcall : retrieve_article_info net extract url true st = (.ok r, st1, n))
    (hs : r.success = true) :
    n = 1 ∧ r.plain_text.isSome = true ∧
    st1 = { st with cached_articles_info :=
              dictInsert (articleCacheKey url) r st.cached_articles_info } := by
  simp only [retrieve_article_info, hmiss, if_pos] at hcall
  split at hcall
  · simp only [Prod.mk.injEq, Except.ok.injEq] at hcall
    rw [← hcall.1] at hs
    simp at hs
  · split at hcall
    · split at hcall
      · simp only [if_pos, Prod.mk.injEq, Except.ok.injEq] at hcall
        obtain ⟨h1, h2, h3⟩ := hcall
        subst h1
        exact ⟨h3.symm, rfl, h2.symm⟩
      · simp only [Prod.mk.injEq, Except.ok.injEq] at hcall
        rw [← hcall.1] at hs
        simp at hs
    · simp only [Prod.mk.injEq, Except.ok.injEq] at hcall
      rw [← hcall.1] at hs
      simp at hs

/-- On a cache miss, a call to `simple_fetch` with `cached = true` that
returns a non-empty list stored that list under the computed key. -/
theorem simple_fetch_miss_nonempty (parse : Parse) (clean : CleanHtml)
    (srcs : Option (List Feed)) (st : FState) (v : List SimplifiedEntry)
    (st1 : FState) (n : Nat)
    (hmiss : dictGet (simpleCacheKey srcs) st.cached_simple_fetch = none)
    (hcall : simple_fetch parse clean srcs true st = (.ok v, st1, n))
    (hv : v ≠ []) :
    st1 = { st with cached_simple_fetch :=
              dictInsert (simpleCacheKey srcs) v st.cached_simple_fetch } := by
  simp only [simple_fetch, hmiss, if_pos] at hcall
  split at hcall
  · simp at hcall
  · split at hcall
    · simp only [Prod.mk.injEq, Except.ok.injEq] at hcall
      obtain ⟨h1, h2, h3⟩ := hcall
      subst h1
      exact h2.symm
    · next h =>
      simp only [Prod.mk.injEq, Except.ok.injEq] at hcall
      rw [hcall.1] at h
      exact absurd ⟨trivial, hv⟩ h

/-- C1: for every cache-enabled call whose key is already in the
corresponding in-memory cache, the stored value is returned unchanged with no
new network call (parts 1 and 2, assuming the cache invariant that stored
article records carry a `plain_text` key); and issuing the same logical
request twice — where the first call populates the cache (a successful
article record, a non-empty simplified list) — yields the identical result on
the second call with no further network call, so exactly one article GET in
total (parts 3 and 4). -/
theorem claim_C1_cached_calls_no_refetch (st : FState) (hinv : cacheInvariant st) :
    (∀ (net : Net) (extract : Extract) (url : String) (r : ArticleInfo),
        dictGet (articleCacheKey url) st.cached_articles_info = some r →
        retrieve_article_info net extract url true st = (.ok r, st, 0)) ∧
    (∀ (parse : Parse) (clean : CleanHtml) (srcs : Option (List Feed))
        (v : List SimplifiedEntry),
        dictGet (simpleCacheKey srcs) st.cached_simple_fetch = some v →
        simple_fetch parse clean srcs true st = (.ok v, st, 0)) ∧
    (∀ (net : Net) (extract : Extract) (url : String) (r : ArticleInfo)
        (st1 : FState) (n : Nat),
        dictGet (articleCacheKey url) st.cached_articles_info = none →
        retrieve_article_info net extract url true st = (.ok r, st1, n) →
        r.success = true →
        n = 1 ∧ retrieve_article_info net extract url true st1 = (.ok r, st1, 0)) ∧
    (∀ (parse : Parse) (clean : CleanHtml) (srcs : Option (List Feed))
        (v : List SimplifiedEntry) (st1 : FState) (n : Nat),
        dictGet (simpleCacheKey srcs) st.cached_simple_fetch = none →
        simple_fetch parse clean srcs true st = (.ok v, st1, n) →
        v ≠ [] →
        simple_fetch parse clean srcs true st1 = (.ok v, st1, 0)) := by
  refine ⟨?_, ?_, ?_, ?_⟩
  · intro net extract url r hr
    exact retrieve_article_info_hit net extract url st r hr
      (hinv.1 _ (dictGet_mem hr)).2
  · intro parse clean srcs v hv
    exact simple_fetch_hit parse clean srcs st v hv
  · intro net extract url r st1 n hmiss hcall hs
    obtain ⟨hn, hpt, hst1⟩ :=
      retrieve_article_info_miss_success net extract url st r st1 n hmiss hcall hs
    refine ⟨hn, ?_⟩
    apply retrieve_article_info_hit net extract url st1 r _ hpt
    rw [hst1]
    exact dictGet_dictInsert_self _ _ _
  · intro parse clean srcs v st1 n hmiss hcall hv
    have hst1 := simple_fetch_miss_nonempty parse clean srcs st v st1 n hmiss hcall hv
    apply simple_fetch_hit parse clean srcs st1 v
    rw [hst1]
    exact dictGet_dictInsert_self _ _ _

/-- C1 witness: concrete hits on both caches, and concrete request pairs
whose second call replays the first result without a network call. -/
theorem claim_C1_witness :
    retrieve_article_info (fun _ => .error "down") (fun _ => none) "http://a" true
        ⟨false, [("URL<None>", [⟨"u", "t", 3, none⟩])],
         [("URL<http://a>", ⟨"body", some 200, some "p", true⟩)]⟩
      = (.ok ⟨"body", some 200, some "p", true⟩,
         ⟨false, [("URL<None>", [⟨"u", "t", 3, none⟩])],
          [("URL<http://a>", ⟨"body", some 200, some "p", true⟩)]⟩, 0) ∧
    simple_fetch (fun _ => some []) (fun s => s) none true
        ⟨false, [("URL<None>", [⟨"u", "t", 3, none⟩])],
         [("URL<http://a>", ⟨"body", some 200, some "p", true⟩)]⟩
      = (.ok [⟨"u", "t", 3, none⟩],
         ⟨false, [("URL<None>", [⟨"u", "t", 3, none⟩])],
          [("URL<http://a>", ⟨"body", some 200, some "p", true⟩)]⟩, 0) ∧
    (1 = 1 ∧ retrieve_article_info (fun _ => .ok ⟨"html", 200⟩) (fun _ => some "text")
        "http://b" true
        ⟨false, [("URL<None>", [⟨"u", "t", 3, none⟩])],
         [("URL<http://a>", ⟨"body", some 200, some "p", true⟩),
          ("URL<http://b>", ⟨"html", some 200, some "text", true⟩)]⟩
      = (.ok ⟨"html", some 200, some "text", true⟩,
         ⟨false, [("URL<None>", [⟨"u", "t", 3, none⟩])],
          [("URL<http://a>", ⟨"body", some 200, some "p", true⟩),
           ("URL<http://b>", ⟨"html", some 200, some "text", true⟩)]⟩, 0)) ∧
    simple_fetch (fun _ => some [⟨["u2"], "t2", 4, none⟩]) (fun s => s)
        (some [⟨"F", "http://f"⟩]) true
        ⟨false,
         [("URL<None>", [⟨"u", "t", 3, none⟩]),
          (simpleCacheKey (some [⟨"F", "http://f"⟩]), [⟨"u2", "t2", 4, none⟩])],
         [("URL<http://a>", ⟨"body", some 200, some "p", true⟩)]⟩
      = (.ok [⟨"u2", "t2", 4, none⟩],
         ⟨false,
          [("URL<None>", [⟨"u", "t", 3, none⟩]),
           (simpleCacheKey (some [⟨"F", "http://f"⟩]), [⟨"u2", "t2", 4, none⟩])],
          [("URL<http://a>", ⟨"body", some 200, some "p", true⟩)]⟩, 0) := by
  refine ⟨?_, ?_, ?_, ?_⟩
  · exact (claim_C1_cached_calls_no_refetch _ (by decide)).1 _ _ _ _ (by decide)
  · exact (claim_C1_cached_calls_no_refetch _ (by decide)).2.1 _ _ _ _ (by decide)
  · exact (claim_C1_cached_calls_no_refetch
      ⟨false, [("URL<None>", [⟨"u", "t", 3, none⟩])],
       [("URL<http://a>", ⟨"body", some 200, some "p", true⟩)]⟩ (by decide)).2.2.1
      _ _ "http://b" _ _ 1 (by decide) (by decide) rfl
  · exact (claim_C1_cached_calls_no_refetch _ (by decide)).2.1 _ _ _ _ (by decide)

/-- C10: the cache key for an explicit empty source list coincides with the
sentinel key of the default sources (`"URL<None>"`), so with `cached = true`
a previously cached default-sources result is returned unchanged for an empty
source list — while a fresh (uncached) fetch of no sources returns the empty
list after zero network calls. -/
theorem claim_C10_empty_sources_alias (st : FState) (v : List SimplifiedEntry)
    (hv : dictGet "URL<None>" st.cached_simple_fetch = some v) :
    simpleCacheKey (some []) = simpleCacheKey none ∧
    (∀ parse clean, simple_fetch parse clean (some []) true st = (.ok v, st, 0)) ∧
    (∀ parse clean, simple_fetch parse clean (some []) false st = (.ok [], st, 0)) := by
  refine ⟨rfl, fun parse clean => simple_fetch_hit parse clean (some []) st v hv,
    fun parse clean => ?_⟩
  simp [simple_fetch, fetch, sortByPublishedDesc, List.mapM.loop, pure, Except.pure]

/-- C10 witness: a state caching a default-sources result under
`"URL<None>"`, queried with the explicit empty source list. -/
theorem claim_C10_witness :
    simpleCacheKey (some []) = simpleCacheKey none ∧
    simple_fetch (fun _ => some [⟨["u2"], "t2", 4, none⟩]) (fun s => s) (some []) true
        ⟨false, [("URL<None>", [⟨"u", "t", 3, none⟩])], []⟩
      = (.ok [⟨"u", "t", 3, none⟩],
         ⟨false, [("URL<None>", [⟨"u", "t", 3, none⟩])], []⟩, 0) ∧
    simple_fetch (fun _ => some [⟨["u2"], "t2", 4, none⟩]) (fun s => s) (some []) false
        ⟨false, [("URL<None>", [⟨"u", "t", 3, none⟩])], []⟩
      = (.ok [], ⟨false, [("URL<None>", [⟨"u", "t", 3, none⟩])], []⟩, 0) := by
  obtain ⟨h1, h2, h3⟩ := claim_C10_empty_sources_alias
    ⟨false, [("URL<None>", [⟨"u", "t", 3, none⟩])], []⟩ [⟨"u", "t", 3, none⟩] (by decide)
  exact ⟨h1, h2 _ _, h3 _ _⟩

/-- A successful record returned (without exception) by a `cached = true`
call of `retrieve_article_info` on a state satisfying the cache invariant
always carries a `plain_text` key: fresh successful records are constructed
with it, and cached ones carry it by the invariant. -/
theorem retrieve_article_info_ok_success_isSome (net : Net) (extract : Extract)
    (url : String) (st : FState) (r : ArticleInfo) (st1 : FState) (n : Nat)
    (hinv : cacheInvariant st)
    (hcall : retrieve_article_info net extract url true st = (.ok r, st1, n))
    (hs : r.success = true) : r.plain_text.isSome = true := by
  cases hdg : dictGet (articleCacheKey url) st.cached_articles_info with
  | some r0 =>
    have h0 := hinv.1 _ (dictGet_mem hdg)
    have hhit := retrieve_article_info_hit net extract url st r0 hdg h0.2
    rw [hhit] at hcall
    obtain ⟨h1, -, -⟩ := Prod.mk.injEq .. ▸ hcall
    injection h1 with h1
    rw [← h1]
    exact h0.2
  | none =>
    exact (retrieve_article_info_miss_success net extract url st r st1 n hdg hcall hs).2.1

/-- C3 counterexample: on a transport-level failure (here a connection
error), `retrieve_article_info` returns a record with no `status_code` key,
so `retrieve_article_contents` evaluates `"Error " + str(data["status_code"])`
and raises `KeyError` instead of returning an `"Error <status_code>"` string
— refuting the claim that it never raises and returns the error string for
transport failures too. -/
theorem claim_C3_counterexample :
    retrieve_article_contents (fun _ => .error "connection refused") (fun _ => none)
        "http://x/a" FState.empty
      = (.error (.keyError "status_code"), FState.empty, 1) := by decide

/-- C3 (amended): `retrieve_article_contents(url)` returns the extracted
plain text when `retrieve_article_info` succeeds; when the underlying fetch
or extraction failed *with a response* (non-2xx status, or extraction
failure) it returns the literal string `"Error <status_code>"`; but on a
transport-level failure the info record has no `status_code` key and the call
raises `KeyError` instead of returning. -/
theorem claim_C3_contents_error_string (net : Net) (extract : Extract)
    (url : String) (st : FState) (hinv : cacheInvariant st)
    (r : ArticleInfo) (st1 : FState) (n : Nat)
    (hinfo : retrieve_article_info net extract url true st = (.ok r, st1, n)) :
    (r.success = true → ∃ pt, r.plain_text = some pt ∧
        retrieve_article_contents net extract url st = (.ok pt, st1, n)) ∧
    (∀ c, r.success = false → r.status_code = some c →
        retrieve_article_contents net extract url st
          = (.ok ("Error " ++ toString c), st1, n)) ∧
    (r.success = false → r.status_code = none →
        retrieve_article_contents net extract url st
          = (.error (.keyError "status_code"), st1, n)) := by
  refine ⟨?_, ?_, ?_⟩
  · intro hs
    obtain ⟨pt, hpt⟩ := Option.isSome_iff_exists.mp
      (retrieve_article_info_ok_success_isSome net extract url st r st1 n hinv hinfo hs)
    exact ⟨pt, hpt, by simp [retrieve_article_contents, hinfo, hs, hpt]⟩
  · intro c hs hc
    simp [retrieve_article_contents, hinfo, hs, hc]
  · intro hs hc
    simp [retrieve_article_contents, hinfo, hs, hc]

/-- C3 witness: a 404 response makes `retrieve_article_contents` return the
literal string `"Error 404"`. -/
theorem claim_C3_witness :
    retrieve_article_contents (fun _ => .ok ⟨"not found", 404⟩) (fun _ => none)
        "http://x/a" FState.empty
      = (.ok "Error 404", FState.empty, 1) :=
  (claim_C3_contents_error_string (fun _ => .ok ⟨"not found", 404⟩) (fun _ => none)
      "http://x/a" FState.empty (by decide)
      ⟨"not found", some 404, none, false⟩ FState.empty 1 (by decide)).2.1
    404 rfl rfl

/-- C9: every record produced by the `simple_fetch` projection carries
exactly the four keys `url`, `title`, `published_on`, `short_summary`, with
`short_summary` null exactly when the source entry has no `summary` field;
and the list `simple_fetch` returns on a fresh (uncached) call is exactly the
projection of the entries returned by `fetch`, item for item. -/
theorem claim_C9_simplified_entry_shape (clean : CleanHtml) :
    (∀ e r, project_entry clean e = .ok r →
        r.keys = ["url", "title", "published_on", "short_summary"] ∧
        (r.short_summary = none ↔ e.summary = none)) ∧
    (∀ parse srcs st,
        (simple_fetch parse clean srcs false st).1
          = (fetch parse srcs).1.mapM (project_entry clean)) := by
  constructor
  · intro e r hr
    obtain ⟨links, title, pp, summary⟩ := e
    cases links with
    | nil => simp [project_entry] at hr
    | cons l ls =>
      simp only [project_entry, Except.ok.injEq] at hr
      subst hr
      exact ⟨rfl, by simp⟩
  · intro parse srcs st
    simp only [simple_fetch, Bool.false_eq_true, if_false]
    cases h : (fetch parse srcs).1.mapM (project_entry clean) with
    | error e => simp [h]
    | ok fd => simp [h]

/-- C9 witness: a concrete entry without a summary projects to a record with
the four keys and a null `short_summary`, and a concrete fresh call returns
the projection of its fetch. -/
theorem claim_C9_witness :
    (⟨"u", "t", 3, none⟩ : SimplifiedEntry).keys
        = ["url", "title", "published_on", "short_summary"] ∧
    ((⟨"u", "t", 3, none⟩ : SimplifiedEntry).short_summary = none ↔
        (⟨["u"], "t", 3, none⟩ : RawEntry).summary = none) ∧
    (simple_fetch (fun _ => some [⟨["u"], "t", 3, none⟩]) (fun s => s) none false
        FState.empty).1
      = (fetch (fun _ => some [⟨["u"], "t", 3, none⟩]) none).1.mapM
          (project_entry (fun s => s)) :=
  ⟨((claim_C9_simplified_entry_shape (fun s => s)).1 ⟨["u"], "t", 3, none⟩
      ⟨"u", "t", 3, none⟩ rfl).1,
   ((claim_C9_simplified_entry_shape (fun s => s)).1 ⟨["u"], "t", 3, none⟩
      ⟨"u", "t", 3, none⟩ rfl).2,
   (claim_C9_simplified_entry_shape (fun s => s)).2 _ none FState.empty⟩
